import Mathlib

/-!
Shallow embedding of the tool-registration and input-validation core of
the brightdata-mastra-tools repository
(src/mastra/tools/web-tools.ts and src/mastra/agents/web-agent.ts),
together with proofs about its specified behavior.

JavaScript values that flow through the code (provider results, thrown
values) are modelled by the inductive type JsValue; machine strings are
Lean Strings; optional/undefined fields are Option; a function that can
throw is modelled as returning Except.  Each tool's async execute body
is modelled as a pure function that takes the provider call as a
function argument and additionally returns the list of provider calls
it performed, so that "no provider call was made" is expressible.
-/

/-- The closed set of tool identifiers (type BrightDataToolId in
web-tools.ts). -/
inductive BrightDataToolId
  | scrape
  | search
  | amazonProduct
  | linkedinCollectProfiles
  deriving DecidableEq, Repr, BEq

/-- interface BrightDataToolsConfig: apiKey plus an optional exclusion
list (excludeTools?: BrightDataToolId[]). -/
structure BrightDataToolsConfig where
  apiKey : String
  excludeTools : Option (List BrightDataToolId) := none

/-- The provider client handle: new bdclient({ apiKey, autoCreateZones:
true }).  Only the constructor arguments are observable at this layer. -/
structure BrightDataClient where
  apiKey : String
  autoCreateZones : Bool
  deriving Repr, DecidableEq

/-- createBrightDataClient from web-tools.ts. -/
def createBrightDataClient (apiKey : String) : BrightDataClient :=
  { apiKey := apiKey, autoCreateZones := true }

/-- A constructed tool instance as stored in the registry: its stable id,
its description and the client it closes over.  The execute bodies are
modelled separately as the pure functions scrapeExecute, searchExecute,
amazonExecute and linkedinExecute below. -/
structure ToolInstance where
  id : String
  description : String
  client : BrightDataClient
  deriving Repr, DecidableEq

/-- createScrapeTool (registry-level view: id, description, captured
client). -/
def createScrapeTool (client : BrightDataClient) : ToolInstance :=
  { id := "scrape"
    description := "Scrape website content and return it in clean markdown format. Bypasses anti-bot protection and CAPTCHAs."
    client := client }

/-- createSearchTool (registry-level view). -/
def createSearchTool (client : BrightDataClient) : ToolInstance :=
  { id := "search"
    description := "Search the web using Google, Bing, or Yandex. Returns search results with anti-bot protection bypass."
    client := client }

/-- createAmazonProductTool (registry-level view). -/
def createAmazonProductTool (client : BrightDataClient) : ToolInstance :=
  { id := "amazonProduct"
    description := "Get detailed Amazon product information including price, ratings, reviews, and specifications. Requires a valid Amazon product URL."
    client := client }

/-- createLinkedinCollectProfilesTool (registry-level view). -/
def createLinkedinCollectProfilesTool (client : BrightDataClient) : ToolInstance :=
  { id := "linkedinCollectProfiles"
    description := "Fetch LinkedIn profile data for one or more profile URLs. Returns work experience, education, skills, and more."
    client := client }

/-- Partial BrightDataToolRegistry: the mapping built by brightDataTools.
A missing entry (tool omitted because it was excluded) is none. -/
structure BrightDataToolRegistry where
  scrape : Option ToolInstance := none
  search : Option ToolInstance := none
  amazonProduct : Option ToolInstance := none
  linkedinCollectProfiles : Option ToolInstance := none

/-- Whether the registry object has an entry under the given identifier
(in JS: whether the property is present on the partial record). -/
def registryHasTool (reg : BrightDataToolRegistry) : BrightDataToolId → Bool
  | .scrape => reg.scrape.isSome
  | .search => reg.search.isSome
  | .amazonProduct => reg.amazonProduct.isSome
  | .linkedinCollectProfiles => reg.linkedinCollectProfiles.isSome

/-- The string name of a tool identifier, as used in web-agent.ts. -/
def toolIdName : BrightDataToolId → String
  | .scrape => "scrape"
  | .search => "search"
  | .amazonProduct => "amazonProduct"
  | .linkedinCollectProfiles => "linkedinCollectProfiles"

/-- JavaScript String.prototype.trim(), modelled structurally: drop
leading and trailing whitespace characters.  (Defined here rather than
via String.trim so that concrete instances reduce in the kernel.) -/
def jsTrim (s : String) : String :=
  ⟨((s.data.dropWhile Char.isWhitespace).reverse.dropWhile
      Char.isWhitespace).reverse⟩

/-- brightDataTools from web-tools.ts, instrumented with the number of
provider clients constructed (second component) so that "no client is
constructed" on the error path is expressible.
The JS guard is (!config.apiKey?.trim()): the error is thrown exactly
when the trimmed key is the empty string, before the client is built.
excludedTools is new Set(config.excludeTools); an undefined exclusion
list yields the empty set. -/
def brightDataToolsCounting (config : BrightDataToolsConfig) :
    Except String BrightDataToolRegistry × Nat :=
  if jsTrim config.apiKey = "" then
    (.error "Bright Data API key is required to initialize tools.", 0)
  else
    let excludedTools := config.excludeTools.getD []
    let client := createBrightDataClient (jsTrim config.apiKey)
    let tools : BrightDataToolRegistry :=
      { scrape :=
          if excludedTools.contains .scrape then none
          else some (createScrapeTool client)
        search :=
          if excludedTools.contains .search then none
          else some (createSearchTool client)
        amazonProduct :=
          if excludedTools.contains .amazonProduct then none
          else some (createAmazonProductTool client)
        linkedinCollectProfiles :=
          if excludedTools.contains .linkedinCollectProfiles then none
          else some (createLinkedinCollectProfilesTool client) }
    (.ok tools, 1)

/-- brightDataTools proper: just the result of the instrumented
version. -/
def brightDataTools (config : BrightDataToolsConfig) :
    Except String BrightDataToolRegistry :=
  (brightDataToolsCounting config).1

/-- A JavaScript value as it flows through this code: provider results
and thrown non-Error values. -/
inductive JsValue
  | str (s : String)
  | num (n : Int)
  | boolean (b : Bool)
  | null
  | arr (items : List JsValue)
  | obj (fields : List (String × JsValue))

/-- Is the value a JS string (typeof result === 'string')? -/
def isJsString : JsValue → Bool
  | .str _ => true
  | _ => false

/-- JavaScript String(v) conversion, for the String(error) fallback. -/
def jsToString : JsValue → String
  | .str s => s
  | .num n => toString n
  | .boolean b => if b then "true" else "false"
  | .null => "null"
  | .arr _ => ""
  | .obj _ => "[object Object]"

/-- A value thrown by a provider call: either an Error instance carrying
a message, or any other value. -/
inductive ThrownValue
  | errorObj (message : String)
  | other (v : JsValue)

/-- The message extraction in every catch block:
error instanceof Error ? error.message : String(error). -/
def errorToMessage : ThrownValue → String
  | .errorObj m => m
  | .other v => jsToString v

/-- One hexadecimal digit, for JSON \u escapes of control characters. -/
def hexDigit (n : Nat) : Char :=
  if n < 10 then Char.ofNat (48 + n) else Char.ofNat (87 + n)

/-- JSON.stringify escaping of a single character inside a string
literal. -/
def jsonEscapeChar (c : Char) : String :=
  if c = '"' then "\\\""
  else if c = '\\' then "\\\\"
  else if c = '\n' then "\\n"
  else if c = '\t' then "\\t"
  else if c = '\r' then "\\r"
  else if c = Char.ofNat 8 then "\\b"
  else if c = Char.ofNat 12 then "\\f"
  else if c.toNat < 32 then
    "\\u00" ++ String.singleton (hexDigit (c.toNat / 16)) ++ String.singleton (hexDigit (c.toNat % 16))
  else String.singleton c

/-- A JSON string literal: opening quote, escaped characters, closing
quote. -/
def jsonQuote (s : String) : String :=
  "\"" ++ String.join (s.data.map jsonEscapeChar) ++ "\""

/-- n spaces, for JSON.stringify's two-space indentation. -/
def indentSpaces : Nat → String
  | 0 => ""
  | n + 1 => " " ++ indentSpaces n

/-- Join a list of strings with a separator (Array.prototype.join
semantics for a non-empty list; empty list gives ""). -/
def joinSep (sep : String) : List String → String
  | [] => ""
  | [x] => x
  | x :: y :: rest => x ++ sep ++ joinSep sep (y :: rest)

mutual

/-- JSON.stringify(v, null, 2) at a given current indentation depth:
objects and arrays put each member on its own line, indented two spaces
past the current depth, with the closing bracket at the current depth. -/
def jsStringifyAux : Nat → JsValue → String
  | _, .str s => jsonQuote s
  | _, .num n => toString n
  | _, .boolean b => if b then "true" else "false"
  | _, .null => "null"
  | _, .arr [] => "[]"
  | ind, .arr (x :: xs) =>
      "[\n" ++ joinSep ",\n" (jsStringifyItems (ind + 2) (x :: xs)) ++ "\n"
        ++ indentSpaces ind ++ "]"
  | _, .obj [] => "\x7b\x7d"
  | ind, .obj (f :: fs) =>
      "\x7b\n" ++ joinSep ",\n" (jsStringifyFields (ind + 2) (f :: fs)) ++ "\n"
        ++ indentSpaces ind ++ "\x7d"

/-- The lines for the items of an array, each at the given depth. -/
def jsStringifyItems : Nat → List JsValue → List String
  | _, [] => []
  | ind, x :: xs =>
      (indentSpaces ind ++ jsStringifyAux ind x) :: jsStringifyItems ind xs

/-- The lines for the fields of an object, each at the given depth. -/
def jsStringifyFields : Nat → List (String × JsValue) → List String
  | _, [] => []
  | ind, (k, v) :: fs =>
      (indentSpaces ind ++ jsonQuote k ++ ": " ++ jsStringifyAux ind v)
        :: jsStringifyFields ind fs

end

/-- JSON.stringify(result, null, 2). -/
def jsStringify (v : JsValue) : String :=
  jsStringifyAux 0 v

/-- normalizeDatasetResult from web-tools.ts:
typeof result === 'string' ? result : JSON.stringify(result, null, 2). -/
def normalizeDatasetResult : JsValue → String
  | .str s => s
  | v => jsStringify v

/-- The argument record of client.scrape(url, opts) as built by the
scrape tool. -/
structure ScrapeProviderCall where
  url : String
  dataFormat : String
  format : String
  country : Option String
  deriving Repr, DecidableEq

/-- The argument record of client.search(query, opts) as built by the
search tool. -/
structure SearchProviderCall where
  query : String
  searchEngine : String
  dataFormat : String
  format : String
  country : Option String
  deriving Repr, DecidableEq

/-- The options record passed to dataset.collectProducts /
dataset.collectProfiles. -/
structure DatasetCollectOptions where
  format : String
  async : Bool
  deriving Repr, DecidableEq

/-- One element of the batch request sent to the Amazon dataset:
either { url } or { url, zipcode }. -/
structure AmazonBatchItem where
  url : String
  zipcode : Option String
  deriving Repr, DecidableEq

/-- The execute body of the scrape tool.  The provider call
client.scrape is passed in as a function; the result is the tool's
return value (or thrown error message) together with the list of
provider calls performed.  Note that on success the raw provider result
is returned as-is, with no normalization. -/
def scrapeExecute (provider : ScrapeProviderCall → Except ThrownValue JsValue)
    (url : String) (country : Option String) :
    Except String JsValue × List ScrapeProviderCall :=
  let call : ScrapeProviderCall :=
    { url := url, dataFormat := "markdown", format := "raw"
      country := country.map String.toLower }
  match provider call with
  | .ok result => (.ok result, [call])
  | .error e =>
      (.error ("Bright Data scrape failed for \"" ++ url ++ "\": "
        ++ errorToMessage e), [call])

/-- The input of the search tool's execute as destructured from context;
omitted optional fields are none.  The destructuring defaults
searchEngine = 'google' and dataFormat = 'markdown' are applied by
searchBuildCall. -/
structure SearchToolInput where
  query : String
  searchEngine : Option String := none
  country : Option String := none
  dataFormat : Option String := none

/-- The provider call the search tool builds from its input:
client.search(query, { searchEngine, dataFormat, format: 'raw',
country: country?.toLowerCase() }). -/
def searchBuildCall (input : SearchToolInput) : SearchProviderCall :=
  { query := input.query
    searchEngine := input.searchEngine.getD "google"
    dataFormat := input.dataFormat.getD "markdown"
    format := "raw"
    country := input.country.map String.toLower }

/-- The execute body of the search tool. -/
def searchExecute (provider : SearchProviderCall → Except ThrownValue JsValue)
    (input : SearchToolInput) :
    Except String JsValue × List SearchProviderCall :=
  let call := searchBuildCall input
  match provider call with
  | .ok result => (.ok result, [call])
  | .error e =>
      (.error ("Bright Data search failed for \"" ++ input.query ++ "\": "
        ++ errorToMessage e), [call])

/-- The one-element batch request the Amazon tool builds:
[ zipcode?.trim() ? { url, zipcode: zipcode.trim() } : { url } ].
A missing or whitespace-only zipcode (falsy after trimming) yields the
bare { url } element. -/
def amazonBuildRequest (url : String) (zipcode : Option String) :
    List AmazonBatchItem :=
  [ match zipcode.map jsTrim with
    | some t => if t ≠ "" then { url := url, zipcode := some t }
                else { url := url, zipcode := none }
    | none => { url := url, zipcode := none } ]

/-- The execute body of the amazonProduct tool.  hasAmazonDataset models
the presence of client.datasets?.amazon; the dataset.collectProducts
call is the provider function. -/
def amazonExecute (hasAmazonDataset : Bool)
    (provider : List AmazonBatchItem → DatasetCollectOptions →
      Except ThrownValue JsValue)
    (url : String) (zipcode : Option String) :
    Except String String × List (List AmazonBatchItem × DatasetCollectOptions) :=
  if hasAmazonDataset = false then
    (.error "Bright Data Amazon dataset client is not available.", [])
  else
    let request := amazonBuildRequest url zipcode
    let options : DatasetCollectOptions := { format := "json", async := false }
    match provider request options with
    | .ok result => (.ok (normalizeDatasetResult result), [(request, options)])
    | .error e =>
        (.error ("Bright Data Amazon product lookup failed for \"" ++ url
          ++ "\": " ++ errorToMessage e), [(request, options)])

/-- The execute body of the linkedinCollectProfiles tool.
hasLinkedinDataset models the presence of client.datasets?.linkedin;
dataset.collectProfiles is the provider function.  The urls list is
passed through as given (format = 'json' is the destructuring
default). -/
def linkedinExecute (hasLinkedinDataset : Bool)
    (provider : List String → DatasetCollectOptions →
      Except ThrownValue JsValue)
    (urls : List String) (format : Option String) :
    Except String String × List (List String × DatasetCollectOptions) :=
  if hasLinkedinDataset = false then
    (.error "Bright Data LinkedIn dataset client is not available.", [])
  else
    let options : DatasetCollectOptions :=
      { format := format.getD "json", async := false }
    match provider urls options with
    | .ok result => (.ok (normalizeDatasetResult result), [(urls, options)])
    | .error e =>
        (.error ("Bright Data LinkedIn profile collection failed: "
          ++ errorToMessage e), [(urls, options)])

/-- missingTools from web-agent.ts: the reduce over the four
(name, tool) pairs, pushing the name of every absent tool. -/
def missingTools (brightTools : BrightDataToolRegistry) : List String :=
  [("search", brightTools.search), ("scrape", brightTools.scrape),
   ("amazonProduct", brightTools.amazonProduct),
   ("linkedinCollectProfiles", brightTools.linkedinCollectProfiles)].foldl
    (fun acc p => if p.2.isNone then acc ++ [p.1] else acc) []

/-- The completeness check in web-agent.ts: if missingTools is non-empty,
throw the error naming them (missingTools.join(", ")); otherwise
proceed. -/
def webAgentToolCheck (brightTools : BrightDataToolRegistry) :
    Except String Unit :=
  let missing := missingTools brightTools
  if missing.length > 0 then
    .error ("Bright Data tools failed to initialize ("
      ++ joinSep ", " missing ++ "). Verify BRIGHTDATA_API_KEY.")
  else
    .ok ()

/-- The call site in web-agent.ts: brightDataTools({ apiKey }) with no
exclusion list. -/
def webAgentBrightTools (apiKey : String) :
    Except String BrightDataToolRegistry × Nat :=
  brightDataToolsCounting { apiKey := apiKey, excludeTools := none }

/-- Does the character belong to a URL authority (host) component, i.e.
is it before the first '/', '?' or '#'? -/
def isHostChar (c : Char) : Bool :=
  c ≠ '/' && c ≠ '?' && c ≠ '#'

/-- Does the character belong to a URL path component, i.e. is it before
the first '?' or '#'? -/
def isPathChar (c : Char) : Bool :=
  c ≠ '?' && c ≠ '#'

/-- The characters following the scheme separator, for an http(s) URL. -/
def afterScheme (l : List Char) : Option (List Char) :=
  if "https://".data.isPrefixOf l then some (l.drop 8)
  else if "http://".data.isPrefixOf l then some (l.drop 7)
  else none

/-- Modelled from the spec: the underlying syntactic URL check of
z.string().url() lives in the external zod library, not in this
repository; the spec describes it as "syntactically valid URL".  It is
modelled as: an http or https scheme, followed by a non-empty host, with
no space anywhere. -/
def isValidUrl (s : String) : Bool :=
  match afterScheme s.data with
  | none => false
  | some r =>
      !(r.takeWhile isHostChar).isEmpty && s.data.all (fun c => c ≠ ' ')

/-- The path characters of an http(s) URL: everything after the host up
to the first '?' or '#'. -/
def urlPathChars (l : List Char) : List Char :=
  match afterScheme l with
  | none => []
  | some r => (r.dropWhile isHostChar).takeWhile isPathChar

/-- The path component of a URL, as a string. -/
def urlPath (s : String) : String :=
  ⟨urlPathChars s.data⟩

/-- The regex test of the amazonProduct url refinement:
/\/(dp|gp\/product)\//.test(value), i.e. the string contains "/dp/" or
"/gp/product/" somewhere. -/
def amazonProductUrlPattern (s : String) : Bool :=
  decide ("/dp/".data <:+: s.data) || decide ("/gp/product/".data <:+: s.data)

/-- The amazonProduct input url validation as the code performs it:
z.string().url().refine(value matches the product pattern) — the
refinement receives the whole url string. -/
def amazonProductUrlValid (s : String) : Bool :=
  isValidUrl s && amazonProductUrlPattern s

/-- The validation as the spec's words describe it: a syntactically
valid URL whose PATH matches the product-path pattern.  Stated for
comparison with amazonProductUrlValid. -/
def amazonProductUrlValidSpec (s : String) : Bool :=
  isValidUrl s && amazonProductUrlPattern (urlPath s)

/-- Helper: a left summand is an infix of an appended string's
characters. -/
lemma data_infix_append_left (a b : String) : a.data <:+: (a ++ b).data :=
  ⟨[], b.data, by simp [String.data_append]⟩

/-- Helper: a right summand is an infix of an appended string's
characters. -/
lemma data_infix_append_right (a b : String) : b.data <:+: (a ++ b).data :=
  ⟨a.data, [], by simp [String.data_append]⟩

/-- Helper: a string that differs from P on the first |P| characters is
not P followed by anything. -/
lemma ne_append_of_take_ne (M P : String)
    (h : M.data.take P.data.length ≠ P.data) :
    ∀ s, M ≠ P ++ s := by
  intro s he
  apply h
  rw [he, String.data_append]
  exact List.take_left P.data s.data

/-- Helper: the remainder after stripping the scheme is a suffix of the
original character list. -/
lemma afterScheme_suffix {l r : List Char} (h : afterScheme l = some r) :
    r <:+ l := by
  unfold afterScheme at h
  split at h
  · injection h with h
    subst h
    exact List.drop_suffix 8 l
  · split at h
    · injection h with h
      subst h
      exact List.drop_suffix 7 l
    · exact absurd h (by simp)

/-- Helper: the extracted URL path is always an infix of the URL
itself. -/
lemma urlPathChars_sub (l : List Char) : urlPathChars l <:+: l := by
  unfold urlPathChars
  cases h : afterScheme l with
  | none => exact ⟨[], l, by simp⟩
  | some r =>
      exact ((List.takeWhile_prefix _).isInfix).trans
        (((List.dropWhile_suffix _).isInfix).trans
          ((afterScheme_suffix h).isInfix))

/-- Helper: an element of a joined list of strings appears inside the
joined string. -/
lemma mem_joinSep_sub (sep : String) (l : List String) (s : String)
    (h : s ∈ l) : s.data <:+: (joinSep sep l).data := by
  induction l with
  | nil => cases h
  | cons x xs ih =>
      cases xs with
      | nil =>
          rcases List.mem_cons.mp h with h | h
          · subst h
            exact List.infix_refl _
          · cases h
      | cons y ys =>
          rcases List.mem_cons.mp h with h | h
          · subst h
            exact (data_infix_append_left s sep).trans
              (data_infix_append_left (s ++ sep) (joinSep sep (y :: ys)))
          · exact (ih h).trans
              (data_infix_append_right (x ++ sep) (joinSep sep (y :: ys)))

/-- Helper: a tool's name is in missingTools exactly when the registry
lacks an entry for it. -/
lemma mem_missingTools_iff (reg : BrightDataToolRegistry)
    (id : BrightDataToolId) :
    toolIdName id ∈ missingTools reg ↔ registryHasTool reg id = false := by
  obtain ⟨s1, s2, s3, s4⟩ := reg
  cases s1 <;> cases s2 <;> cases s3 <;> cases s4 <;> cases id <;>
    simp [missingTools, registryHasTool, toolIdName]

/-- Helper: extend an infix fact along an append on the right. -/
lemma data_infix_extend_right {w : String} (a b : String)
    (h : w.data <:+: a.data) : w.data <:+: (a ++ b).data :=
  h.trans (data_infix_append_left a b)

/-- Helper: extend an infix fact along an append on the left. -/
lemma data_infix_extend_left {w : String} (a b : String)
    (h : w.data <:+: b.data) : w.data <:+: (a ++ b).data :=
  h.trans (data_infix_append_right a b)

/-- Helper: the serialized line of a field of an object is among the
serialized field lines. -/
lemma key_line_mem (ind : Nat) (fields : List (String × JsValue))
    (k : String) (v : JsValue) (h : (k, v) ∈ fields) :
    (indentSpaces ind ++ jsonQuote k ++ ": " ++ jsStringifyAux ind v)
      ∈ jsStringifyFields ind fields := by
  induction fields with
  | nil => cases h
  | cons f fs ih =>
      obtain ⟨k', v'⟩ := f
      rcases List.mem_cons.mp h with h | h
      · cases h
        exact List.mem_cons_self _ _
      · exact List.mem_cons_of_mem _ (ih h)

/-- Helper: every key of an object appears, JSON-quoted, inside the
pretty-printed serialization of the object. -/
lemma jsonQuote_key_sub (ind : Nat) (fields : List (String × JsValue))
    (k : String) (hk : k ∈ fields.map Prod.fst) :
    (jsonQuote k).data <:+: (jsStringifyAux ind (.obj fields)).data := by
  rcases List.mem_map.mp hk with ⟨⟨k', v⟩, hmem, hfst⟩
  cases hfst
  cases fields with
  | nil => cases hmem
  | cons f fs =>
      have hline := key_line_mem (ind + 2) (f :: fs) k' v hmem
      have h1 : (jsonQuote k').data <:+:
          (indentSpaces (ind + 2) ++ jsonQuote k' ++ ": "
            ++ jsStringifyAux (ind + 2) v).data :=
        ((data_infix_append_right (indentSpaces (ind + 2)) (jsonQuote k')).trans
          (data_infix_append_left (indentSpaces (ind + 2) ++ jsonQuote k') ": ")).trans
          (data_infix_append_left
            (indentSpaces (ind + 2) ++ jsonQuote k' ++ ": ")
            (jsStringifyAux (ind + 2) v))
      have h2 := mem_joinSep_sub ",\n" (jsStringifyFields (ind + 2) (f :: fs))
        _ hline
      have h3 : (joinSep ",\n" (jsStringifyFields (ind + 2) (f :: fs))).data <:+:
          (jsStringifyAux ind (.obj (f :: fs))).data := by
        simp only [jsStringifyAux]
        exact (((data_infix_append_right "\x7b\n"
            (joinSep ",\n" (jsStringifyFields (ind + 2) (f :: fs)))).trans
          (data_infix_append_left
            ("\x7b\n" ++ joinSep ",\n" (jsStringifyFields (ind + 2) (f :: fs)))
            "\n")).trans
          (data_infix_append_left
            ("\x7b\n" ++ joinSep ",\n" (jsStringifyFields (ind + 2) (f :: fs)) ++ "\n")
            (indentSpaces ind))).trans
          (data_infix_append_left
            ("\x7b\n" ++ joinSep ",\n" (jsStringifyFields (ind + 2) (f :: fs)) ++ "\n"
              ++ indentSpaces ind)
            "\x7d")
      exact (h1.trans h2).trans h3

/-- Helper: if the product pattern matches the path of a URL, it matches
the full URL string (the path is a substring of the URL). -/
lemma amazonProductUrlPattern_mono {s : String}
    (h : amazonProductUrlPattern (urlPath s) = true) :
    amazonProductUrlPattern s = true := by
  simp only [amazonProductUrlPattern, Bool.or_eq_true, decide_eq_true_eq] at h ⊢
  have hp : urlPathChars s.data <:+: s.data := urlPathChars_sub s.data
  rcases h with h | h
  · exact Or.inl (h.trans hp)
  · exact Or.inr (h.trans hp)

/-- Claim C1: for every configuration with a credential that is non-empty
after trimming and any exclusion set, the registry returned by
brightDataTools has an entry for exactly the identifiers not excluded:
no entry exists for any excluded identifier, and an entry exists for
every non-excluded identifier. -/
theorem brightDataTools_registry_exactly_nonexcluded
    (config : BrightDataToolsConfig) (h : jsTrim config.apiKey ≠ "") :
    ∃ reg, brightDataTools config = .ok reg ∧
      ∀ id : BrightDataToolId,
        registryHasTool reg id = !((config.excludeTools.getD []).contains id) := by
  simp only [brightDataTools, brightDataToolsCounting, if_neg h]
  refine ⟨_, rfl, ?_⟩
  intro id
  cases id <;>
    (simp only [registryHasTool]
     split <;> simp_all)

/-- Witness for C1 at a concrete configuration excluding scrape and
search. -/
theorem brightDataTools_registry_exactly_nonexcluded_witness :
    jsTrim "key" ≠ "" ∧
    ∃ reg, brightDataTools
        { apiKey := "key", excludeTools := some [.scrape, .search] } = .ok reg ∧
      ∀ id : BrightDataToolId, registryHasTool reg id =
        !((({ apiKey := "key", excludeTools := some [.scrape, .search] } :
            BrightDataToolsConfig).excludeTools.getD []).contains id) :=
  ⟨by decide, brightDataTools_registry_exactly_nonexcluded _ (by decide)⟩

/-- Claim C2: for every configuration whose credential is empty or
whitespace-only after trimming, brightDataTools throws the configuration
error and the client factory is never invoked (zero clients are
constructed). -/
theorem brightDataTools_blank_key_no_client
    (config : BrightDataToolsConfig) (h : jsTrim config.apiKey = "") :
    brightDataToolsCounting config =
      (.error "Bright Data API key is required to initialize tools.", 0) := by
  simp [brightDataToolsCounting, h]

/-- Witness for C2 at a whitespace-only credential. -/
theorem brightDataTools_blank_key_no_client_witness :
    jsTrim "   " = "" ∧
    brightDataToolsCounting { apiKey := "   " } =
      (.error "Bright Data API key is required to initialize tools.", 0) :=
  ⟨by decide, brightDataTools_blank_key_no_client { apiKey := "   " } (by decide)⟩

/-- Claim C3: for every registry, the missing-tools list contains
exactly the names of the absent identifiers; when it is non-empty,
agent assembly fails with an error whose message names every missing
identifier (not just the first); when all four are present, assembly
does not fail. -/
theorem webAgent_missing_tools_lists_all (reg : BrightDataToolRegistry) :
    (∀ id : BrightDataToolId,
        toolIdName id ∈ missingTools reg ↔ registryHasTool reg id = false) ∧
    (missingTools reg ≠ [] →
      ∃ msg, webAgentToolCheck reg = .error msg ∧
        ∀ id : BrightDataToolId, registryHasTool reg id = false →
          (toolIdName id).data <:+: msg.data) ∧
    (missingTools reg = [] → webAgentToolCheck reg = .ok ()) := by
  refine ⟨mem_missingTools_iff reg, fun hne => ?_, fun h0 => ?_⟩
  · refine ⟨"Bright Data tools failed to initialize ("
      ++ joinSep ", " (missingTools reg) ++ "). Verify BRIGHTDATA_API_KEY.",
      ?_, ?_⟩
    · simp only [webAgentToolCheck]
      rw [if_pos (List.length_pos.mpr hne)]
    · intro id hid
      have hm : toolIdName id ∈ missingTools reg :=
        (mem_missingTools_iff reg id).mpr hid
      exact (mem_joinSep_sub ", " (missingTools reg) _ hm).trans
        ((data_infix_append_right "Bright Data tools failed to initialize ("
            (joinSep ", " (missingTools reg))).trans
          (data_infix_append_left
            ("Bright Data tools failed to initialize ("
              ++ joinSep ", " (missingTools reg))
            "). Verify BRIGHTDATA_API_KEY."))
  · simp only [webAgentToolCheck]
    rw [if_neg]
    simp [h0]

/-- Witness for C3 at a registry missing both search and scrape: the
error message names both. -/
theorem webAgent_missing_tools_lists_all_witness :
    ∃ msg, webAgentToolCheck
        { amazonProduct := some (createAmazonProductTool (createBrightDataClient "k"))
          linkedinCollectProfiles :=
            some (createLinkedinCollectProfilesTool (createBrightDataClient "k")) }
        = .error msg ∧
      ∀ id : BrightDataToolId, registryHasTool
          { amazonProduct := some (createAmazonProductTool (createBrightDataClient "k"))
            linkedinCollectProfiles :=
              some (createLinkedinCollectProfilesTool (createBrightDataClient "k")) }
          id = false →
        (toolIdName id).data <:+: msg.data :=
  (webAgent_missing_tools_lists_all _).2.1 (by simp [missingTools])

/-- Claim C4, counterexample: the claim says every tool's failure
message includes the key input identifying the request; for
linkedinCollectProfiles with a concrete profile URL and a provider
error, the re-raised message does not contain that URL. -/
theorem linkedin_failure_message_omits_urls :
    (linkedinExecute true (fun _ _ => .error (.errorObj "boom"))
        ["https://www.linkedin.com/in/example"] none).1 =
      .error "Bright Data LinkedIn profile collection failed: boom" ∧
    ¬ ("https://www.linkedin.com/in/example".data <:+:
        "Bright Data LinkedIn profile collection failed: boom".data) :=
  ⟨rfl, by decide⟩

/-- Claim C4, amended: for search, scrape and amazonProduct every
provider-call failure is re-raised with a message containing the
operation name, the key input (query or URL) and the underlying error's
message (String(error) fallback for non-Error values); for
linkedinCollectProfiles the message contains the operation name and the
underlying message but not the input URLs. -/
theorem provider_failure_messages (e : ThrownValue) (url : String)
    (country zipcode fmt : Option String) (input : SearchToolInput)
    (urls : List String) :
    ((scrapeExecute (fun _ => .error e) url country).1 =
      .error ("Bright Data scrape failed for \"" ++ url ++ "\": "
        ++ errorToMessage e)) ∧
    "scrape".data <:+: ("Bright Data scrape failed for \"" ++ url ++ "\": "
        ++ errorToMessage e).data ∧
    url.data <:+: ("Bright Data scrape failed for \"" ++ url ++ "\": "
        ++ errorToMessage e).data ∧
    (errorToMessage e).data <:+: ("Bright Data scrape failed for \"" ++ url
        ++ "\": " ++ errorToMessage e).data ∧
    ((searchExecute (fun _ => .error e) input).1 =
      .error ("Bright Data search failed for \"" ++ input.query ++ "\": "
        ++ errorToMessage e)) ∧
    "search".data <:+: ("Bright Data search failed for \"" ++ input.query
        ++ "\": " ++ errorToMessage e).data ∧
    input.query.data <:+: ("Bright Data search failed for \"" ++ input.query
        ++ "\": " ++ errorToMessage e).data ∧
    (errorToMessage e).data <:+: ("Bright Data search failed for \""
        ++ input.query ++ "\": " ++ errorToMessage e).data ∧
    ((amazonExecute true (fun _ _ => .error e) url zipcode).1 =
      .error ("Bright Data Amazon product lookup failed for \"" ++ url
        ++ "\": " ++ errorToMessage e)) ∧
    "Amazon product lookup".data <:+:
      ("Bright Data Amazon product lookup failed for \"" ++ url ++ "\": "
        ++ errorToMessage e).data ∧
    url.data <:+: ("Bright Data Amazon product lookup failed for \"" ++ url
        ++ "\": " ++ errorToMessage e).data ∧
    (errorToMessage e).data <:+:
      ("Bright Data Amazon product lookup failed for \"" ++ url ++ "\": "
        ++ errorToMessage e).data ∧
    ((linkedinExecute true (fun _ _ => .error e) urls fmt).1 =
      .error ("Bright Data LinkedIn profile collection failed: "
        ++ errorToMessage e)) ∧
    "LinkedIn profile collection".data <:+:
      ("Bright Data LinkedIn profile collection failed: "
        ++ errorToMessage e).data ∧
    (errorToMessage e).data <:+:
      ("Bright Data LinkedIn profile collection failed: "
        ++ errorToMessage e).data := by
  refine ⟨rfl, ?_, ?_, ?_, rfl, ?_, ?_, ?_, rfl, ?_, ?_, ?_, rfl, ?_, ?_⟩
  · exact data_infix_extend_right _ _ (data_infix_extend_right _ _
      (data_infix_extend_right _ _ (by decide)))
  · exact data_infix_extend_right _ _ (data_infix_extend_right _ _
      (data_infix_extend_left _ _ (List.infix_refl _)))
  · exact data_infix_extend_left _ _ (List.infix_refl _)
  · exact data_infix_extend_right _ _ (data_infix_extend_right _ _
      (data_infix_extend_right _ _ (by decide)))
  · exact data_infix_extend_right _ _ (data_infix_extend_right _ _
      (data_infix_extend_left _ _ (List.infix_refl _)))
  · exact data_infix_extend_left _ _ (List.infix_refl _)
  · exact data_infix_extend_right _ _ (data_infix_extend_right _ _
      (data_infix_extend_right _ _ (by decide)))
  · exact data_infix_extend_right _ _ (data_infix_extend_right _ _
      (data_infix_extend_left _ _ (List.infix_refl _)))
  · exact data_infix_extend_left _ _ (List.infix_refl _)
  · exact data_infix_extend_right _ _ (by decide)
  · exact data_infix_extend_left _ _ (List.infix_refl _)

/-- Claim C5, counterexample: the claim says every tool's execute
returns a string (serializing non-string results); scrape returns a
structured provider result unchanged, not a string. -/
theorem scrape_result_not_normalized :
    (scrapeExecute (fun _ => .ok (.obj [("title", .str "Example")]))
        "https://example.com" none).1 =
      .ok (.obj [("title", .str "Example")]) ∧
    isJsString (.obj [("title", .str "Example")]) = false :=
  ⟨rfl, rfl⟩

/-- Claim C5, amended: amazonProduct and linkedinCollectProfiles return
a normalized string on success — the raw result itself when it is
already a string, otherwise its pretty-printed JSON serialization,
which contains all of an object's keys; search and scrape return the
raw provider result unchanged (a string only when the provider result
already is one). -/
theorem dataset_result_normalization (s : String) (v r : JsValue)
    (url : String) (country zipcode fmt : Option String)
    (input : SearchToolInput) (urls : List String)
    (fields : List (String × JsValue)) (k : String) :
    normalizeDatasetResult (.str s) = s ∧
    (isJsString v = false → normalizeDatasetResult v = jsStringify v) ∧
    (k ∈ fields.map Prod.fst →
      (jsonQuote k).data <:+: (normalizeDatasetResult (.obj fields)).data) ∧
    (amazonExecute true (fun _ _ => .ok r) url zipcode).1 =
      .ok (normalizeDatasetResult r) ∧
    (linkedinExecute true (fun _ _ => .ok r) urls fmt).1 =
      .ok (normalizeDatasetResult r) ∧
    (scrapeExecute (fun _ => .ok r) url country).1 = .ok r ∧
    (searchExecute (fun _ => .ok r) input).1 = .ok r := by
  refine ⟨rfl, ?_, ?_, rfl, rfl, rfl, rfl⟩
  · intro hv
    cases v <;> first | rfl | simp [isJsString] at hv
  · intro hk
    exact jsonQuote_key_sub 0 fields k hk

/-- Witness for C5 amended, at a non-string provider result and an
object with key "title". -/
theorem dataset_result_normalization_witness :
    normalizeDatasetResult (.str "raw") = "raw" ∧
    normalizeDatasetResult .null = jsStringify .null ∧
    (jsonQuote "title").data <:+:
      (normalizeDatasetResult (.obj [("title", JsValue.str "x")])).data ∧
    (amazonExecute true (fun _ _ => .ok (.str "ok"))
      "https://www.amazon.com/dp/B1" none).1 =
        .ok (normalizeDatasetResult (.str "ok")) ∧
    (scrapeExecute (fun _ => .ok (.str "ok")) "https://example.com" none).1 =
      .ok (.str "ok") :=
  have h := dataset_result_normalization "raw" .null (.str "ok")
    "https://www.amazon.com/dp/B1" none none none
    { query := "q" } ["https://www.linkedin.com/in/a"]
    [("title", JsValue.str "x")] "title"
  ⟨h.1, h.2.1 rfl, h.2.2.1 (by simp),
    dataset_result_normalization "raw" .null (.str "ok")
      "https://www.amazon.com/dp/B1" none none none
      { query := "q" } ["https://www.linkedin.com/in/a"]
      [("title", JsValue.str "x")] "title" |>.2.2.2.1,
    (dataset_result_normalization "raw" .null (.str "ok")
      "https://example.com" none none none
      { query := "q" } ["https://www.linkedin.com/in/a"]
      [("title", JsValue.str "x")] "title").2.2.2.2.2.1⟩

/-- Claim C6: for every search invocation, an omitted engine resolves to
google and an omitted result format resolves to markdown before
dispatch, the country code when present is passed lower-cased, and the
transport format sent to the provider is always "raw". -/
theorem search_call_defaults (input : SearchToolInput)
    (provider : SearchProviderCall → Except ThrownValue JsValue) :
    (searchExecute provider input).2 = [searchBuildCall input] ∧
    (searchBuildCall input).format = "raw" ∧
    (input.searchEngine = none →
      (searchBuildCall input).searchEngine = "google") ∧
    (input.dataFormat = none →
      (searchBuildCall input).dataFormat = "markdown") ∧
    (searchBuildCall input).country = input.country.map String.toLower := by
  refine ⟨?_, rfl, ?_, ?_, rfl⟩
  · cases h : provider (searchBuildCall input) <;> simp [searchExecute, h]
  · intro h
    simp [searchBuildCall, h]
  · intro h
    simp [searchBuildCall, h]

/-- Witness for C6 at the spec's example input (query only). -/
theorem search_call_defaults_witness :
    (searchExecute (fun _ => .ok (.str "r")) { query := "quantum computing" }).2
      = [searchBuildCall { query := "quantum computing" }] ∧
    (searchBuildCall { query := "quantum computing" }).format = "raw" ∧
    (searchBuildCall { query := "quantum computing" }).searchEngine = "google" ∧
    (searchBuildCall { query := "quantum computing" }).dataFormat = "markdown" ∧
    (searchBuildCall { query := "quantum computing" }).country = none :=
  have h := search_call_defaults { query := "quantum computing" }
    (fun _ => .ok (.str "r"))
  ⟨h.1, h.2.1, h.2.2.1 rfl, h.2.2.2.1 rfl, h.2.2.2.2⟩

/-- Claim C7: every amazonProduct invocation sends a one-element batch
whose element carries the URL and the trimmed zip code exactly when a
zip code was supplied and is non-blank after trimming; collection is
invoked with format "json" and async false. -/
theorem amazon_request_shape (url : String) (zipcode : Option String)
    (provider : List AmazonBatchItem → DatasetCollectOptions →
      Except ThrownValue JsValue) :
    (amazonExecute true provider url zipcode).2 =
      [(amazonBuildRequest url zipcode,
        { format := "json", async := false })] ∧
    (∃ item, amazonBuildRequest url zipcode = [item] ∧ item.url = url ∧
      (zipcode = none → item.zipcode = none) ∧
      (∀ z, zipcode = some z → jsTrim z = "" → item.zipcode = none) ∧
      (∀ z, zipcode = some z → jsTrim z ≠ "" →
        item.zipcode = some (jsTrim z))) := by
  constructor
  · cases h : provider (amazonBuildRequest url zipcode)
        { format := "json", async := false } <;>
      simp [amazonExecute, h]
  · cases zipcode with
    | none =>
        refine ⟨{ url := url, zipcode := none }, rfl, rfl,
          fun _ => rfl, ?_, ?_⟩
        · intro z hz
          cases hz
        · intro z hz
          cases hz
    | some z =>
        by_cases ht : jsTrim z = ""
        · refine ⟨{ url := url, zipcode := none }, ?_, rfl, ?_, ?_, ?_⟩
          · simp [amazonBuildRequest, ht]
          · intro h
            cases h
          · intro z' hz' ht'
            rfl
          · intro z' hz' hne
            cases hz'
            exact absurd ht hne
        · refine ⟨{ url := url, zipcode := some (jsTrim z) }, ?_, rfl,
            ?_, ?_, ?_⟩
          · simp [amazonBuildRequest, ht]
          · intro h
            cases h
          · intro z' hz' ht'
            cases hz'
            exact absurd ht' ht
          · intro z' hz' hne
            cases hz'
            rfl

/-- Witness for C7 at a padded zip code: the batch element carries the
trimmed zip code. -/
theorem amazon_request_shape_witness :
    (amazonExecute true (fun _ _ => .ok (.str "r"))
        "https://www.amazon.com/dp/B1" (some " 94105 ")).2 =
      [(amazonBuildRequest "https://www.amazon.com/dp/B1" (some " 94105 "),
        { format := "json", async := false })] ∧
    ∃ item, amazonBuildRequest "https://www.amazon.com/dp/B1"
        (some " 94105 ") = [item] ∧
      item.url = "https://www.amazon.com/dp/B1" ∧
      item.zipcode = some (jsTrim " 94105 ") :=
  have h := amazon_request_shape "https://www.amazon.com/dp/B1"
    (some " 94105 ") (fun _ _ => .ok (.str "r"))
  have h2 := h.2
  ⟨h.1, by
    obtain ⟨item, h1, hu, _, _, h5⟩ := h2
    exact ⟨item, h1, hu, h5 " 94105 " rfl (by decide)⟩⟩

/-- Claim C8: invoking amazonProduct or linkedinCollectProfiles on a
client lacking the corresponding dataset capability throws the specific
"dataset client is not available" error with no provider call made, and
that message is not of the provider-call failure form. -/
theorem dataset_unavailable_before_call (url : String)
    (zipcode fmt : Option String) (urls : List String)
    (providerA : List AmazonBatchItem → DatasetCollectOptions →
      Except ThrownValue JsValue)
    (providerL : List String → DatasetCollectOptions →
      Except ThrownValue JsValue) :
    amazonExecute false providerA url zipcode =
      (.error "Bright Data Amazon dataset client is not available.", []) ∧
    linkedinExecute false providerL urls fmt =
      (.error "Bright Data LinkedIn dataset client is not available.", []) ∧
    (∀ s, "Bright Data Amazon dataset client is not available." ≠
      "Bright Data Amazon product lookup failed for \"" ++ s) ∧
    (∀ s, "Bright Data LinkedIn dataset client is not available." ≠
      "Bright Data LinkedIn profile collection failed: " ++ s) :=
  ⟨rfl, rfl,
    ne_append_of_take_ne _ _ (by decide),
    ne_append_of_take_ne _ _ (by decide)⟩

/-- Witness for C8 at concrete inputs and providers. -/
theorem dataset_unavailable_before_call_witness :
    amazonExecute false (fun _ _ => .ok (.str "r"))
        "https://www.amazon.com/dp/B1" none =
      (.error "Bright Data Amazon dataset client is not available.", []) ∧
    linkedinExecute false (fun _ _ => .ok (.str "r"))
        ["https://www.linkedin.com/in/a"] none =
      (.error "Bright Data LinkedIn dataset client is not available.", []) ∧
    "Bright Data Amazon dataset client is not available." ≠
      "Bright Data Amazon product lookup failed for \"" ++ "u\": boom" ∧
    "Bright Data LinkedIn dataset client is not available." ≠
      "Bright Data LinkedIn profile collection failed: " ++ "boom" :=
  have h := dataset_unavailable_before_call "https://www.amazon.com/dp/B1"
    none none ["https://www.linkedin.com/in/a"]
    (fun _ _ => .ok (.str "r")) (fun _ _ => .ok (.str "r"))
  ⟨h.1, h.2.1, h.2.2.1 "u\": boom", h.2.2.2 "boom"⟩

/-- Claim C9, counterexample: the claim says validation accepts a url
iff it is a valid URL whose PATH matches the product pattern; this valid
URL has the pattern only in its query string, its path lacks it, and the
code accepts it anyway (the refinement regex runs over the whole
string). -/
theorem amazon_url_pattern_counterexample :
    isValidUrl "https://www.amazon.com/product?ref=/dp/B07X" = true ∧
    amazonProductUrlPattern
      (urlPath "https://www.amazon.com/product?ref=/dp/B07X") = false ∧
    amazonProductUrlValid "https://www.amazon.com/product?ref=/dp/B07X"
      = true ∧
    amazonProductUrlValidSpec "https://www.amazon.com/product?ref=/dp/B07X"
      = false :=
  ⟨by decide, by decide, by decide, by decide⟩

/-- Claim C9, amended: validation accepts every syntactically valid URL
whose path contains the product pattern, and rejects any url lacking
"/dp/" and "/gp/product/" everywhere in its text; the pattern is tested
against the whole URL string, so a match outside the path also passes
(see the counterexample).  The spec's example without either segment
fails validation. -/
theorem amazon_url_validation_amended :
    (∀ s, isValidUrl s = true → amazonProductUrlPattern (urlPath s) = true →
      amazonProductUrlValid s = true) ∧
    (∀ s, amazonProductUrlPattern s = false →
      amazonProductUrlValid s = false) ∧
    amazonProductUrlValid "https://amazon.com/some/other/path" = false := by
  refine ⟨?_, ?_, by decide⟩
  · intro s hv hp
    simp [amazonProductUrlValid, hv, amazonProductUrlPattern_mono hp]
  · intro s hp
    simp [amazonProductUrlValid, hp]

/-- Witness for C9 amended at a real product URL and a patternless
URL. -/
theorem amazon_url_validation_amended_witness :
    amazonProductUrlValid "https://www.amazon.com/dp/B07X" = true ∧
    amazonProductUrlValid "https://amazon.com/some/other/path" = false :=
  ⟨(amazon_url_validation_amended).1 "https://www.amazon.com/dp/B07X"
      (by decide) (by decide),
    (amazon_url_validation_amended).2.2⟩

/-- Claim C10: in agent assembly brightDataTools is called with no
exclusion list, so whenever it returns normally (non-blank credential)
the registry contains all four identifiers, the missing-tools list is
empty and the completeness-check error branch is not taken. -/
theorem webAgent_completeness_check_unreachable (apiKey : String)
    (h : jsTrim apiKey ≠ "") :
    ∃ reg, webAgentBrightTools apiKey = (.ok reg, 1) ∧
      (∀ id, registryHasTool reg id = true) ∧
      missingTools reg = [] ∧
      webAgentToolCheck reg = .ok () := by
  simp only [webAgentBrightTools, brightDataToolsCounting, if_neg h]
  refine ⟨_, rfl, ?_, ?_, ?_⟩
  · intro id
    cases id <;> rfl
  · rfl
  · rfl

/-- Witness for C10 at a concrete credential. -/
theorem webAgent_completeness_check_unreachable_witness :
    jsTrim "key" ≠ "" ∧
    ∃ reg, webAgentBrightTools "key" = (.ok reg, 1) ∧
      (∀ id, registryHasTool reg id = true) ∧
      missingTools reg = [] ∧
      webAgentToolCheck reg = .ok () :=
  ⟨by decide, webAgent_completeness_check_unreachable "key" (by decide)⟩

/-- Witness for C4 amended at a concrete error and inputs. -/
theorem provider_failure_messages_witness :
    ((scrapeExecute (fun _ => .error (.errorObj "boom"))
        "https://example.com" none).1 =
      .error ("Bright Data scrape failed for \"" ++ "https://example.com"
        ++ "\": " ++ errorToMessage (.errorObj "boom"))) ∧
    "https://example.com".data <:+:
      ("Bright Data scrape failed for \"" ++ "https://example.com"
        ++ "\": " ++ errorToMessage (.errorObj "boom")).data ∧
    (errorToMessage (ThrownValue.errorObj "boom")).data <:+:
      ("Bright Data LinkedIn profile collection failed: "
        ++ errorToMessage (.errorObj "boom")).data :=
  have h := provider_failure_messages (.errorObj "boom")
    "https://example.com" none none none { query := "q" }
    ["https://www.linkedin.com/in/a"]
  ⟨h.1, h.2.2.1, h.2.2.2.2.2.2.2.2.2.2.2.2.2.2⟩
